import Mathlib

/-!
Verification of the task-lifecycle core of the lecture-notes service.

The development shallowly embeds the two source files:
  * `src/worker_function/main.py` — the stage pipeline (`process_task`,
    `update_task_status`, `process_text_with_gpt`, `handler`, storage keys);
  * `src/api_function/main.py` — the submission and deletion handlers
    (`handle_submit_task`, `handle_delete_task`, `save_task_to_storage`).

External effects (network downloads, the transcode subprocess, the
SpeechKit and YandexGPT calls, S3 puts, the queue) are modelled by an
oracle of stage outcomes: each fallible call is a field holding either its
successful return value or the exception/None outcome the Python code can
observe.  The control flow of the handlers is transcribed literally from
the source; text manipulation is carried out on `List Char`, matching
Python's character-based string slicing.
-/

namespace AbstractService

/-- The Task entity as persisted at `tasks/{id}.json`.  Fields that the
JSON object may lack are `Option`; `none` means the key is absent. -/
structure TaskRecord where
  task_id : String
  title : String
  video_url : String
  description : String
  status : String
  created_at : String
  progress : Nat
  status_message : Option String := none
  mp3_url : Option String := none
  processed_at : Option String := none
  video_duration : Option Nat := none
  transcription : Option String := none
  abstract_url : Option String := none
  pdf_url : Option String := none
deriving DecidableEq, Repr

/-- The `result` dict passed to the final `update_task_status` call in
`process_task`: keys `mp3_url`, `processed_at`, `video_duration` are always
present, the remaining keys only when their value is truthy. -/
structure ResultFields where
  mp3_url : String
  processed_at : String
  video_duration : Option Nat
  transcription : Option String := none
  abstract_url : Option String := none
  pdf_url : Option String := none
deriving DecidableEq, Repr

/-- One `update_task_status(task_id, status, progress, message, result)` call. -/
structure StatusUpdate where
  status : String
  progress : Nat
  message : String
  result : Option ResultFields := none
deriving DecidableEq, Repr

/-- Python truthiness of an optional string (`None` and `""` are falsy). -/
def strTruthy : Option String → Bool
  | some s => !(s == "")
  | none => false

/-- Python `dict.update` semantics for an optional key: a key present in the
result dict overwrites, an absent key leaves the stored value. -/
def mergeField {α : Type} (new old : Option α) : Option α :=
  match new with
  | some v => some v
  | none => old

namespace Worker

/-- The merge `task_data.update(result)` for the result dict built in `process_task`
step 6 (the three unconditional keys overwrite; the conditional keys
overwrite only when present). -/
def applyResult (rec : TaskRecord) (r : ResultFields) : TaskRecord :=
  { rec with
    mp3_url := some r.mp3_url
    processed_at := some r.processed_at
    video_duration := r.video_duration
    transcription := mergeField r.transcription rec.transcription
    abstract_url := mergeField r.abstract_url rec.abstract_url
    pdf_url := mergeField r.pdf_url rec.pdf_url }

/-- The body of `update_task_status` before its catch-all handler:
`get_object` on a missing record raises (`Except.error`); otherwise the
record is re-read, merged and written back. -/
def update_task_status_body (store : Option TaskRecord) (u : StatusUpdate) :
    Except String (Option TaskRecord) :=
  match store with
  | none => Except.error "NoSuchKey"
  | some rec =>
    let rec1 := { rec with
      status := u.status
      progress := u.progress
      status_message := some u.message }
    match u.result with
    | none => Except.ok (some rec1)
    | some r => Except.ok (some (applyResult rec1 r))

/-- Function `update_task_status`: the body wrapped in `try/except` — any exception
is logged and swallowed, leaving storage unchanged. -/
def update_task_status (store : Option TaskRecord) (u : StatusUpdate) :
    Option TaskRecord :=
  match update_task_status_body store u with
  | Except.ok s => s
  | Except.error _ => store

/-- Apply a sequence of status updates to the stored record. -/
def runUpdates (store : Option TaskRecord) (us : List StatusUpdate) :
    Option TaskRecord :=
  us.foldl update_task_status store

theorem runUpdates_missing (us : List StatusUpdate) : runUpdates none us = none := by
  induction us with
  | nil => rfl
  | cons u us ih =>
    simpa [runUpdates, update_task_status, update_task_status_body] using ih

/-- The markdown wrapper around a successful YandexGPT completion in
`process_text_with_gpt` (the f-string at the end of the `try` block). -/
def gptHeader (title gen now : List Char) : List Char :=
  ("# ").toList ++ title
    ++ ("\n\n*Автоматически созданный конспект лекции*\n\n---\n\n").toList
    ++ gen
    ++ ("\n\n---\n\n**Создано:** ").toList ++ now
    ++ ("\n**Модель:** YandexGPT Lite\n").toList

/-- The template of the `except`-branch fallback abstract, as a function of
the lecture title, the transcript material actually inserted
(`transcription_text[:3000]`), the ellipsis flag
(`len(transcription_text) > 3000`) and the timestamp. -/
def fallbackCore (title pfx : List Char) (long : Bool) (now : List Char) :
    List Char :=
  ("# ").toList ++ title
    ++ ("\n\n*Автоматически созданный конспект лекции*\n\n## ВВЕДЕНИЕ\nДанный конспект составлен на основе автоматической расшифровки видеозаписи лекции.\n\n## ОСНОВНОЕ СОДЕРЖАНИЕ\n").toList
    ++ pfx ++ (if long then ("...").toList else [])
    ++ ("\n\n## ЗАКЛЮЧЕНИЕ\nКонспект подготовлен автоматически с использованием технологий распознавания речи Яндекса.\n\n---\n\n**Создано:** ").toList
    ++ now
    ++ ("\n**Модель:** Fallback (API unavailable)\n").toList

/-- The fallback abstract built in the `except` branch of
`process_text_with_gpt` from the (possibly already truncated)
`transcription_text`. -/
def fallbackAbstract (title ttext now : List Char) : List Char :=
  fallbackCore title (ttext.take 3000) (decide (3000 < ttext.length)) now

/-- The truncation applied before the API call:
`transcription_text[:25000] + "..."` when over 25000 characters. -/
def truncateForApi (t : List Char) : List Char :=
  if 25000 < t.length then t.take 25000 ++ ("...").toList else t

/-- Function `process_text_with_gpt(transcription_text, title)`.  `gpt` is the
outcome of the YandexGPT completion call: `some gen` when the HTTP call
returns 200 with a well-formed alternative, `none` for every failure
(non-200 status, malformed response, network error), in which case the
`except` branch returns the locally built fallback. -/
def process_text_with_gpt (transcription title : List Char)
    (gpt : Option (List Char)) (now : List Char) : List Char :=
  let t := truncateForApi transcription
  match gpt with
  | some gen => gptHeader title gen now
  | none => fallbackAbstract title t now

theorem process_text_with_gpt_isEmpty (tr ti : List Char)
    (g : Option (List Char)) (n : List Char) :
    (process_text_with_gpt tr ti g n).isEmpty = false := by
  cases g <;> rfl

/-- The truncation never changes the first 3000 characters. -/
theorem truncate_take (t : List Char) :
    (truncateForApi t).take 3000 = t.take 3000 := by
  unfold truncateForApi
  by_cases h : 25000 < t.length
  · rw [if_pos h, List.take_append_eq_append_take]
    have hlen : (t.take 25000).length = 25000 := by
      rw [List.length_take]; omega
    rw [hlen]
    norm_num
    rw [List.take_take]
    norm_num
  · rw [if_neg h]

/-- The truncation never changes whether the text is over 3000 characters. -/
theorem truncate_long (t : List Char) :
    (3000 < (truncateForApi t).length) ↔ (3000 < t.length) := by
  unfold truncateForApi
  by_cases h : 25000 < t.length
  · rw [if_pos h]
    simp only [List.length_append, List.length_take]
    constructor <;> intro <;> omega
  · rw [if_neg h]

/-- On any failure of the external call, the produced abstract is a pure
function of the lecture title, the first 3000 characters of the raw
transcript, an ellipsis flag, and the timestamp. -/
theorem fallback_from_transcript_head (tr title now : List Char) :
    process_text_with_gpt tr title none now
      = fallbackCore title (tr.take 3000) (decide (3000 < tr.length)) now := by
  show fallbackCore title ((truncateForApi tr).take 3000)
      (decide (3000 < (truncateForApi tr).length)) now = _
  rw [truncate_take]
  congr 1
  rw [decide_eq_decide]
  exact truncate_long tr

/-- The task data carried in the queue message body (the fields
`process_task` reads; `task_data['task_id']` etc. are required keys). -/
structure TaskData where
  task_id : String
  title : String
  video_url : String
  description : String := ""
deriving DecidableEq, Repr

/-- Outcomes of the external calls made during one `process_task` run.
`Option` models calls that catch internally and return `None` on failure
(`download_video`, `upload_to_storage`, `upload_text_to_storage`,
`get_video_duration`); `Except` models calls that raise
(`convert_to_mp3`, `transcribe_audio_speechkit`, `generate_pdf_notes`,
`save_pdf_to_storage`).  `gpt` is the YandexGPT completion outcome inside
`process_text_with_gpt` (which itself never raises). -/
structure Oracle where
  download : Option Unit
  convert : Except String Unit
  uploadMp3 : Option String
  transcribe : Except String String
  gpt : Option String
  uploadAbstract : Option String
  genPdf : Except String Unit
  savePdf : Except String String
  videoDuration : Option Nat
  now : String

def mkUpdate (st : String) (p : Nat) (msg : String) : StatusUpdate :=
  { status := st, progress := p, message := msg }

/-- Step 5 of `process_task`: the abstract/PDF block guarded by
`if transcription:`, with its own `try/except` that logs and continues.
Returns the status updates it writes and the values of the local
variables `abstract_url` and `pdf_url` afterwards. -/
def abstractStage (o : Oracle) (txt : String) (title : String) :
    List StatusUpdate × Option String × Option String :=
  let u92 := mkUpdate "processing" 92 "Generating lecture abstract..."
  let abstract := process_text_with_gpt txt.toList title.toList
    (o.gpt.map String.toList) o.now.toList
  if abstract.isEmpty then
    -- `if abstract:` false: no upload, no PDF (unreachable: the abstract
    -- is never empty, see process_text_with_gpt_isEmpty)
    ([u92], none, none)
  else
    -- the local `abstract_url` is assigned before the PDF substeps, so a
    -- raise in `generate_pdf_notes` or `save_pdf_to_storage` (caught by
    -- the block's handler) leaves `abstract_url` set and `pdf_url = None`;
    -- both the 92% and 95% updates are written before either can raise
    let abstract_url := o.uploadAbstract
    let u95 := mkUpdate "processing" 95 "Generating PDF..."
    let pdf_url : Option String :=
      match o.genPdf with
      | Except.error _ => none
      | Except.ok _ =>
        match o.savePdf with
        | Except.error _ => none
        | Except.ok purl => some purl
    ([u92, u95], abstract_url, pdf_url)

/-- Function `process_task(task_data)`: returns the sequence of
`update_task_status` calls it makes (in order) and its boolean return
value.  Notes kept from the source: `convert_to_mp3` raises rather than
returning `None`, so the `if not mp3_path:` branch is unreachable and the
only exception reaching the outer handler is the conversion failure;
`download_video` and `upload_to_storage` catch internally and return
`None`; the transcription and abstract/PDF blocks catch locally. -/
def process_task (o : Oracle) (td : TaskData) : List StatusUpdate × Bool :=
  let u10 := mkUpdate "processing" 10 "Downloading video..."
  match o.download with
  | none => ([u10, mkUpdate "failed" 0 "Failed to download video"], false)
  | some _ =>
    let u40 := mkUpdate "processing" 40 "Converting to MP3..."
    match o.convert with
    | Except.error e =>
      ([u10, u40, mkUpdate "failed" 0 ("Processing error: " ++ e)], false)
    | Except.ok _ =>
      let u80 := mkUpdate "processing" 80 "Uploading MP3..."
      match o.uploadMp3 with
      | none =>
        ([u10, u40, u80, mkUpdate "failed" 0 "Failed to upload MP3"], false)
      | some mp3url =>
        if mp3url = "" then
          ([u10, u40, u80, mkUpdate "failed" 0 "Failed to upload MP3"], false)
        else
          let u85 := mkUpdate "processing" 85 "Transcribing audio..."
          let transcription : Option String :=
            match o.transcribe with
            | Except.ok t => some t
            | Except.error _ => none
          let preUpd : List StatusUpdate :=
            match o.transcribe with
            | Except.ok _ => []
            | Except.error e =>
              [mkUpdate "processing" 90
                ("MP3 ready (transcription failed: " ++ e ++ ")")]
          let stage :=
            if strTruthy transcription then
              abstractStage o (transcription.getD "") td.title
            else (([] : List StatusUpdate), none, none)
          let absUpd := stage.1
          let abstract_url := stage.2.1
          let pdf_url := stage.2.2
          let result : ResultFields :=
            { mp3_url := mp3url
              processed_at := o.now
              video_duration := o.videoDuration
              transcription :=
                if strTruthy transcription then transcription else none
              abstract_url :=
                if strTruthy abstract_url then abstract_url else none
              pdf_url := if strTruthy pdf_url then pdf_url else none }
          let msg :=
            if strTruthy pdf_url then
              "Processing completed - PDF, MP3, transcription and abstract ready"
            else if strTruthy transcription then
              "Processing completed - MP3 and transcription ready"
            else
              "Processing completed - MP3 ready (transcription unavailable)"
          let final : StatusUpdate :=
            { status := "completed", progress := 100, message := msg
              result := some result }
          ([u10, u40, u80, u85] ++ preUpd ++ absUpd ++ [final], true)

/-- The sequence of progress values written during one run. -/
def progressTrace (o : Oracle) (td : TaskData) : List Nat :=
  (process_task o td).1.map StatusUpdate.progress

/-- The status written by the last update of a run. -/
def terminalStatus (o : Oracle) (td : TaskData) : Option String :=
  ((process_task o td).1.getLast?).map StatusUpdate.status

/-- The task record persisted after one `process_task` run over an
initial stored record. -/
def finalRecord (o : Oracle) (td : TaskData) (store : Option TaskRecord) :
    Option TaskRecord :=
  runUpdates store (process_task o td).1

end Worker

open Worker

/-- A concrete queue payload used to instantiate runs. -/
def tdEx : TaskData :=
  { task_id := "t1", title := "Intro",
    video_url := "https://example.com/v.mp4" }

/-- Concrete outcome assignment: every stage succeeds. -/
def oracleAllOk : Oracle :=
  { download := some (), convert := Except.ok ()
    uploadMp3 := some "https://storage/mp3/t1.mp3"
    transcribe := Except.ok "lecture text"
    gpt := some "generated abstract"
    uploadAbstract := some "https://storage/abstracts/t1.md"
    genPdf := Except.ok ()
    savePdf := Except.ok "https://storage/notes/t1_lecture_notes.pdf"
    videoDuration := some 60, now := "2026-01-01T00:00:00" }

/-- Concrete outcome assignment: the video download fails. -/
def oracleDownloadFail : Oracle := { oracleAllOk with download := none }

/-- C1 (counterexample): on a task whose download fails, the worker writes
progress 10 and then the terminal `failed` update with progress 0, so the
persisted progress sequence `[10, 0]` is not monotonically
non-decreasing. -/
theorem C1_counterexample :
    ¬ List.Chain' (· ≤ ·) (progressTrace oracleDownloadFail tdEx) := by
  simp [progressTrace, process_task, oracleDownloadFail, oracleAllOk, tdEx,
    mkUpdate, List.chain'_cons]

/-- C1 (amended): across the status updates of one processing attempt,
progress is monotonically non-decreasing whenever the attempt terminates
`completed`; a hard failure instead resets progress to 0 in the terminal
`failed` update; and progress reaches exactly 100 iff the terminal
persisted status is `completed`. -/
theorem C1_amended (o : Oracle) (td : TaskData) :
    (terminalStatus o td = some "completed" →
      List.Chain' (· ≤ ·) (progressTrace o td)) ∧
    (100 ∈ progressTrace o td ↔ terminalStatus o td = some "completed") ∧
    (terminalStatus o td = some "failed" →
      (progressTrace o td).getLast? = some 0) := by
  obtain ⟨dl, cv, up, tr, g, ua, gp, sp, vd, now⟩ := o
  rcases dl with _ | u1 <;> rcases cv with e1 | u2 <;>
    rcases up with _ | s <;> rcases tr with e2 | t <;>
    (try by_cases hs : s = "") <;> (try by_cases ht : t = "") <;>
    simp_all [terminalStatus, progressTrace, process_task, mkUpdate,
      abstractStage, process_text_with_gpt_isEmpty, strTruthy]

/-- C1 (witness): the amended statement instantiated on the all-stages-
succeed run: its progress sequence is non-decreasing and reaches 100. -/
theorem C1_witness :
    List.Chain' (· ≤ ·) (progressTrace oracleAllOk tdEx) ∧
    100 ∈ progressTrace oracleAllOk tdEx :=
  ⟨(C1_amended oracleAllOk tdEx).1 (by decide),
   (C1_amended oracleAllOk tdEx).2.1.mpr (by decide)⟩

/-- A concrete record as the Submission Service persists it (no result
fields yet). -/
def rec0Ex : TaskRecord :=
  { task_id := "t1", title := "Intro",
    video_url := "https://example.com/v.mp4", description := ""
    status := "processing", created_at := "2026-01-01T00:00:00"
    progress := 10 }

/-- C2: when download, transcode and audio upload succeed but the
transcription stage raises or times out, the task is not marked `failed`:
a degraded 90% status message is written and the final persisted record
has status `completed`, the MP3 URL present and no transcription field. -/
theorem C2_degraded_completed (o : Oracle) (td : TaskData)
    (rec0 : TaskRecord) (url e : String)
    (hd : o.download = some ()) (hc : o.convert = Except.ok ())
    (hu : o.uploadMp3 = some url) (hurl : url ≠ "")
    (ht : o.transcribe = Except.error e)
    (h0 : rec0.transcription = none) :
    ∃ r, finalRecord o td (some rec0) = some r ∧
      r.status = "completed" ∧ r.progress = 100 ∧
      r.mp3_url = some url ∧ r.transcription = none ∧
      mkUpdate "processing" 90 ("MP3 ready (transcription failed: " ++ e ++ ")")
        ∈ (process_task o td).1 := by
  obtain ⟨dl, cv, up, tr, g, ua, gp, sp, vd, now⟩ := o
  simp only at hd hc hu ht
  subst hd hc hu ht
  simp [process_task, finalRecord, runUpdates, update_task_status,
    update_task_status_body, applyResult, mergeField, mkUpdate, strTruthy,
    hurl, h0]

/-- C2 (witness): the theorem instantiated on a run whose transcription
stage raises. -/
theorem C2_witness :
    ∃ r, finalRecord { oracleAllOk with transcribe := Except.error "timeout" }
        tdEx (some rec0Ex) = some r ∧
      r.status = "completed" ∧ r.progress = 100 ∧
      r.mp3_url = some "https://storage/mp3/t1.mp3" ∧ r.transcription = none ∧
      mkUpdate "processing" 90 ("MP3 ready (transcription failed: " ++ "timeout" ++ ")")
        ∈ (process_task { oracleAllOk with transcribe := Except.error "timeout" } tdEx).1 :=
  C2_degraded_completed _ tdEx rec0Ex "https://storage/mp3/t1.mp3" "timeout"
    rfl rfl rfl (by decide) rfl rfl

/-- The dependency chain claimed for persisted records: no transcript ⟹ no
abstract URL, and no abstract URL ⟹ no PDF URL. -/
def dependencyChain (r : TaskRecord) : Prop :=
  (r.transcription = none → r.abstract_url = none) ∧
  (r.abstract_url = none → r.pdf_url = none)

/-- Concrete outcome assignment: transcription and PDF succeed but the
upload of the markdown abstract fails (`upload_text_to_storage` returns
`None`). -/
def oracleAbstractUploadFail : Oracle :=
  { oracleAllOk with uploadAbstract := none }

/-- The record persisted by the run in which the abstract upload fails but
everything else succeeds. -/
def recAbstractUploadFail : TaskRecord :=
  { task_id := "t1", title := "Intro"
    video_url := "https://example.com/v.mp4", description := ""
    status := "completed", created_at := "2026-01-01T00:00:00"
    progress := 100
    status_message :=
      some "Processing completed - PDF, MP3, transcription and abstract ready"
    mp3_url := some "https://storage/mp3/t1.mp3"
    processed_at := some "2026-01-01T00:00:00"
    video_duration := some 60
    transcription := some "lecture text"
    abstract_url := none
    pdf_url := some "https://storage/notes/t1_lecture_notes.pdf" }

/-- C3 (counterexample): when the abstract markdown upload fails but PDF
generation and upload succeed, the worker persists a record with
`pdf_url` present and `abstract_url` absent, refuting the second link of
the claimed dependency chain. -/
theorem C3_counterexample :
    finalRecord oracleAbstractUploadFail tdEx (some rec0Ex)
        = some recAbstractUploadFail ∧
      ¬ dependencyChain recAbstractUploadFail := by
  constructor
  · decide
  · simp [dependencyChain, recAbstractUploadFail]

/-- C3 (amended): for every persisted record of a processing run started
from a submission-shaped record, if the transcription field is absent then
both `abstract_url` and `pdf_url` are absent; the link "`abstract_url`
absent implies `pdf_url` absent" does not hold in general (it fails when
the abstract upload fails while PDF rendering succeeds). -/
theorem C3_amended (o : Oracle) (td : TaskData) (rec0 : TaskRecord)
    (h1 : rec0.transcription = none) (h2 : rec0.abstract_url = none)
    (h3 : rec0.pdf_url = none) (r : TaskRecord)
    (hr : finalRecord o td (some rec0) = some r) :
    r.transcription = none → r.abstract_url = none ∧ r.pdf_url = none := by
  obtain ⟨dl, cv, up, tr, g, ua, gp, sp, vd, now⟩ := o
  rcases dl with _ | u1 <;> rcases cv with e1 | u2 <;>
    rcases up with _ | s <;> rcases tr with e2 | t <;>
    (try by_cases hs : s = "") <;> (try by_cases ht : t = "") <;>
    simp_all [finalRecord, runUpdates, process_task, update_task_status,
      update_task_status_body, applyResult, mergeField, mkUpdate, strTruthy,
      abstractStage, process_text_with_gpt_isEmpty] <;>
    (try subst hr) <;>
    simp_all [mergeField, strTruthy]

/-- The record persisted by the download-failure run from `rec0Ex`. -/
def recDownloadFail : TaskRecord :=
  { rec0Ex with
    status := "failed",
    progress := 0,
    status_message := some "Failed to download video" }

/-- C3 (witness): the amended statement instantiated on the
download-failure run: the persisted record has no transcription and indeed
neither abstract nor PDF URL. -/
theorem C3_amended_witness :
    recDownloadFail.abstract_url = none ∧ recDownloadFail.pdf_url = none :=
  C3_amended oracleDownloadFail tdEx rec0Ex rfl rfl rfl recDownloadFail
    (by decide) rfl

/-- C8: once a transcript exists, the summarization stage always produces
an abstract: `process_text_with_gpt` never returns an empty abstract; on
failure of the external call the fallback depends only on the lecture
title, the first 3000 characters of the raw transcript, an ellipsis flag
and the timestamp; and a run whose hard stages succeed terminates
`completed` whatever the summarization, upload and PDF outcomes are. -/
theorem C8_summarize_total (o : Oracle) (td : TaskData) (url t : String)
    (tr1 tr2 title now : List Char)
    (hd : o.download = some ()) (hc : o.convert = Except.ok ())
    (hu : o.uploadMp3 = some url) (hurl : url ≠ "")
    (ht : o.transcribe = Except.ok t) (hne : t ≠ "")
    (hpre : tr1.take 3000 = tr2.take 3000)
    (hlen : 3000 < tr1.length ↔ 3000 < tr2.length) :
    (∀ g, (process_text_with_gpt tr1 title g now).isEmpty = false) ∧
    process_text_with_gpt tr1 title none now
      = process_text_with_gpt tr2 title none now ∧
    terminalStatus o td = some "completed" := by
  refine ⟨fun g => process_text_with_gpt_isEmpty _ _ _ _, ?_, ?_⟩
  · rw [fallback_from_transcript_head, fallback_from_transcript_head, hpre,
      decide_eq_decide.mpr hlen]
  · obtain ⟨dl, cv, up, tr, g, ua, gp, sp, vd, now2⟩ := o
    simp only at hd hc hu ht
    subst hd hc hu ht
    simp [terminalStatus, process_task, mkUpdate, strTruthy, hurl, hne,
      abstractStage, process_text_with_gpt_isEmpty]

/-- C8 (witness): the statement instantiated on the all-stages-succeed
run with a short concrete transcript. -/
theorem C8_witness :
    (∀ g, (process_text_with_gpt ("lecture text").toList ("Intro").toList g
        ("T").toList).isEmpty = false) ∧
    process_text_with_gpt ("lecture text").toList ("Intro").toList none
        ("T").toList
      = process_text_with_gpt ("lecture text").toList ("Intro").toList none
        ("T").toList ∧
    terminalStatus oracleAllOk tdEx = some "completed" :=
  C8_summarize_total oracleAllOk tdEx "https://storage/mp3/t1.mp3"
    "lecture text" ("lecture text").toList ("lecture text").toList
    ("Intro").toList ("T").toList rfl rfl rfl (by decide) rfl (by decide)
    rfl Iff.rfl

/-- C9: a status update against a missing task record is dropped as a
non-fatal condition: the inner body raises, the catch-all in
`update_task_status` swallows the exception, storage stays absent, and
every later update of the run is likewise dropped without aborting it. -/
theorem C9_missing_record_drop (u : StatusUpdate) (us : List StatusUpdate) :
    update_task_status none u = none ∧
    (∃ e, update_task_status_body none u = Except.error e) ∧
    runUpdates none (u :: us) = none :=
  ⟨rfl, ⟨"NoSuchKey", rfl⟩, runUpdates_missing _⟩

namespace Worker

/-- One queue delivery: the message payload and the outcomes of the
processing run it triggers. -/
structure WorkerMsg where
  td : TaskData
  oracle : Oracle

/-- Observable outcome of one worker `handler` invocation: the returned
status code, the task_ids it called `process_task` on, and whether it
called `delete_message_from_queue`. -/
structure HandlerResult where
  statusCode : Nat
  processed : List String
  deletedQueueMessage : Bool
deriving DecidableEq, Repr

/-- The queue-polling fallback branch of the worker `handler`
(`get_task_from_queue` then `process_task`; the message is deleted only
in the success branch). -/
def pollBranch (poll : Option WorkerMsg) : HandlerResult :=
  match poll with
  | some m =>
    if (process_task m.oracle m.td).2 then
      { statusCode := 200, processed := [m.td.task_id]
        deletedQueueMessage := true }
    else
      { statusCode := 500, processed := [m.td.task_id]
        deletedQueueMessage := false }
  | none => { statusCode := 200, processed := [], deletedQueueMessage := false }

/-- The worker `handler(event, context)`: when the trigger event has a
`messages` list, the `for` loop returns inside its first iteration on
both the success and the failure branch, so only the first message is
processed and `delete_message_from_queue` is never called; an event
without a messages key (or with an empty list) falls through to queue
polling. -/
def handler (messages : Option (List WorkerMsg)) (poll : Option WorkerMsg) :
    HandlerResult :=
  match messages with
  | some (m :: _) =>
    if (process_task m.oracle m.td).2 then
      { statusCode := 200, processed := [m.td.task_id]
        deletedQueueMessage := false }
    else
      { statusCode := 500, processed := [m.td.task_id]
        deletedQueueMessage := false }
  | some [] => pollBranch poll
  | none => pollBranch poll

end Worker

/-- A queue delivery whose processing fails (download failure). -/
def msgFail : WorkerMsg := { td := tdEx, oracle := oracleDownloadFail }

/-- A queue delivery whose processing succeeds. -/
def msgOk : WorkerMsg := { td := tdEx, oracle := oracleAllOk }

/-- C4 (counterexample): a polled delivery whose processing fails is
processed but not deleted from the queue — the worker returns 500 with
the message left in flight, refuting "message deleted from queue
regardless of outcome". -/
theorem C4_counterexample :
    (Worker.handler none (some msgFail)).processed = [tdEx.task_id] ∧
    (Worker.handler none (some msgFail)).statusCode = 500 ∧
    (Worker.handler none (some msgFail)).deletedQueueMessage = false := by
  decide

/-- C4 (amended): in the polling path the worker deletes the queue
message exactly when processing succeeds, and in the trigger path it
never calls `delete_message_from_queue` at all. -/
theorem C4_amended (m : WorkerMsg) :
    ((Worker.handler none (some m)).deletedQueueMessage
        = (process_task m.oracle m.td).2) ∧
    (∀ rest p,
      (Worker.handler (some (m :: rest)) p).deletedQueueMessage = false) := by
  constructor
  · cases h : (process_task m.oracle m.td).2 <;>
      simp [Worker.handler, Worker.pollBranch, h]
  · intro rest p
    cases h : (process_task m.oracle m.td).2 <;>
      simp [Worker.handler, h]

/-- C10: when the trigger event carries more than one message, the
handler processes only the first, returns 200 or 500 immediately, and
neither touches the remaining messages nor the polling/delete path. -/
theorem C10_first_message_only (m : WorkerMsg) (rest : List WorkerMsg)
    (p : Option WorkerMsg) (_h : rest ≠ []) :
    (Worker.handler (some (m :: rest)) p).processed = [m.td.task_id] ∧
    ((Worker.handler (some (m :: rest)) p).statusCode = 200 ∨
      (Worker.handler (some (m :: rest)) p).statusCode = 500) ∧
    (Worker.handler (some (m :: rest)) p).deletedQueueMessage = false := by
  cases hb : (process_task m.oracle m.td).2 <;>
    simp [Worker.handler, hb]

/-- C10 (witness): the statement instantiated on a two-message event. -/
theorem C10_witness :
    (Worker.handler (some [msgFail, msgOk]) none).processed
        = [tdEx.task_id] ∧
    ((Worker.handler (some [msgFail, msgOk]) none).statusCode = 200 ∨
      (Worker.handler (some [msgFail, msgOk]) none).statusCode = 500) ∧
    (Worker.handler (some [msgFail, msgOk]) none).deletedQueueMessage
        = false :=
  C10_first_message_only msgFail [msgOk] none (by simp)

namespace Api

/-- Request body fields read by `handle_submit_task`. -/
structure SubmitRequest where
  title : Option String
  video_url : Option String
  description : Option String := none

/-- Outcomes of the external calls made during one submission. -/
structure SubmitOracle where
  linkValid : Bool
  saveOk : Bool
  enqueueOk : Bool
  newTaskId : String
  now : String

/-- Observable outcome of one submission: the HTTP status code, the task
written by `save_task_to_storage` (if any) and the message body sent to
the queue (if any). -/
structure SubmitResult where
  statusCode : Nat
  savedTask : Option TaskRecord
  enqueued : Option TaskRecord
deriving DecidableEq, Repr

/-- Literal-prefix matcher: consumes the characters of the first list
from the front of the second. -/
def dropLit : List Char → List Char → Option (List Char)
  | [], s => some s
  | _ :: _, [] => none
  | p :: ps, c :: cs => if c = p then dropLit ps cs else none

def isLowerAZ (c : Char) : Bool := ('a' ≤ c) && (c ≤ 'z')

/-- Matches the regex tail `/(d|i)/` at the front of the list. -/
def shareSuffix : List Char → Bool
  | '/' :: c :: '/' :: _ => (c == 'd') || (c == 'i')
  | _ => false

/-- Matches `[a-z]+` (greedy, and `/` is not in `[a-z]`, so greediness is
exact) followed by `/(d|i)/`. -/
def tldThenShare : List Char → Bool
  | c :: cs => isLowerAZ c && shareSuffix (cs.dropWhile isLowerAZ)
  | [] => false

/-- The anchored regex used by `is_yandex_disk_link` and
`validate_yandex_disk_link` to recognize cloud-disk share links. -/
def is_yandex_disk_link (url : String) : Bool :=
  match dropLit ("https://").toList url.toList with
  | none => false
  | some rest =>
    (match dropLit ("disk.yandex.").toList rest with
     | some r => tldThenShare r
     | none => false)
    || (match dropLit ("disk.360.yandex.").toList rest with
        | some r => tldThenShare r
        | none => false)
    || (match dropLit ("yadi.sk").toList rest with
        | some r => shareSuffix r
        | none => false)

/-- Validation step of `handle_submit_task`: a URL that is not a
cloud-disk share link is assumed valid; for a share link the external
metadata lookup outcome decides `is_valid`. -/
def validate_yandex_disk_link (url : String) (metadataOk : Bool) : Bool :=
  if is_yandex_disk_link url then metadataOk else true

/-- The `handle_submit_task(event)` control flow: the falsiness check on
`title`/`video_url`, then link validation, then persist, then enqueue —
each failure returning before the next step runs. -/
def handle_submit_task (req : SubmitRequest) (o : SubmitOracle) :
    SubmitResult :=
  if !(strTruthy req.title) || !(strTruthy req.video_url) then
    { statusCode := 400, savedTask := none, enqueued := none }
  else if !(validate_yandex_disk_link (req.video_url.getD "") o.linkValid) then
    { statusCode := 400, savedTask := none, enqueued := none }
  else
    let task : TaskRecord :=
      { task_id := o.newTaskId
        title := req.title.getD ""
        video_url := req.video_url.getD ""
        description := req.description.getD ""
        status := "processing"
        created_at := o.now
        progress := 10 }
    if o.saveOk then
      if o.enqueueOk then
        { statusCode := 200, savedTask := some task, enqueued := some task }
      else
        { statusCode := 500, savedTask := some task, enqueued := none }
    else
      { statusCode := 500, savedTask := none, enqueued := none }

/-- Storage keys whose deletion `handle_delete_task` attempts, in source
order (each `delete_object` is wrapped in its own try/except, so for an
existing task all four are always attempted). -/
def deleteAttemptKeys (task_id : String) : List String :=
  ["tasks/" ++ task_id ++ ".json",
   "transcriptions/" ++ task_id ++ ".txt",
   "results/" ++ task_id ++ "/notes.pdf",
   "mp3/" ++ task_id ++ ".mp3"]

/-- The `handle_delete_task(task_id)` control flow over the list of
existing task ids: 404 when the task is unknown (nothing deleted),
otherwise 200 with the four fixed keys deleted. -/
def handle_delete_task (tasks : List String) (task_id : String) :
    Nat × List String :=
  if task_id ∈ tasks then (200, deleteAttemptKeys task_id) else (404, [])

end Api

open Api

/-- Key written by `upload_to_storage` inside
`transcribe_audio_speechkit` (worker). -/
def audioKey (tid : String) : String := "audio/" ++ tid ++ ".mp3"

/-- Key written by step 3 of `process_task` (worker). -/
def mp3Key (tid : String) : String := "mp3/" ++ tid ++ ".mp3"

/-- Key written for the markdown abstract in step 5 of `process_task`
(worker). -/
def abstractKey (tid : String) : String := "abstracts/" ++ tid ++ ".md"

/-- Key written by `save_pdf_to_storage` (worker). -/
def pdfKey (tid : String) : String := "notes/" ++ tid ++ "_lecture_notes.pdf"

/-- Key of the task record itself. -/
def taskKey (tid : String) : String := "tasks/" ++ tid ++ ".json"

/-- Legacy transcription key listed in the persisted layout. -/
def legacyTranscriptionKey (tid : String) : String :=
  "transcriptions/" ++ tid ++ ".txt"

/-- C7 (code bug): deleting an existing task removes the task record, the
legacy transcription key and the MP3, but leaves the worker-written
artifacts `audio/{id}.mp3`, `abstracts/{id}.md` and
`notes/{id}_lecture_notes.pdf` untouched — the handler instead targets
`results/{id}/notes.pdf`, a key nothing in the repository ever writes. -/
theorem C7_delete_misses_artifacts :
    (handle_delete_task ["t1"] "t1").1 = 200 ∧
    taskKey "t1" ∈ (handle_delete_task ["t1"] "t1").2 ∧
    legacyTranscriptionKey "t1" ∈ (handle_delete_task ["t1"] "t1").2 ∧
    mp3Key "t1" ∈ (handle_delete_task ["t1"] "t1").2 ∧
    audioKey "t1" ∉ (handle_delete_task ["t1"] "t1").2 ∧
    abstractKey "t1" ∉ (handle_delete_task ["t1"] "t1").2 ∧
    pdfKey "t1" ∉ (handle_delete_task ["t1"] "t1").2 := by
  decide

/-- A submission whose title is whitespace only. -/
def reqWhitespaceTitle : SubmitRequest :=
  { title := some " ", video_url := some "https://example.com/v.mp4" }

/-- A well-formed submission. -/
def reqOk : SubmitRequest :=
  { title := some "Intro", video_url := some "https://example.com/v.mp4" }

/-- Successful infrastructure outcomes for a submission. -/
def subOracleOk : SubmitOracle :=
  { linkValid := true, saveOk := true, enqueueOk := true,
    newTaskId := "t1", now := "2026-01-01T00:00:00" }

/-- Infrastructure outcomes where persistence fails. -/
def subOracleSaveFail : SubmitOracle := { subOracleOk with saveOk := false }

/-- C5 (counterexample): a title that is whitespace only — hence empty
after trimming — is not rejected: the submission returns 200, persists a
Task and enqueues a message, because the code checks Python falsiness
without trimming. -/
theorem C5_counterexample :
    (reqWhitespaceTitle.title = some " " ∧
      (" " : String).toList.all Char.isWhitespace = true) ∧
    (handle_submit_task reqWhitespaceTitle subOracleOk).statusCode = 200 ∧
    (handle_submit_task reqWhitespaceTitle subOracleOk).savedTask.isSome
        = true ∧
    (handle_submit_task reqWhitespaceTitle subOracleOk).enqueued.isSome
        = true := by
  refine ⟨⟨rfl, ?_⟩, ?_, ?_, ?_⟩ <;> decide

/-- C5 (amended): the submission rejects exactly a missing or
exactly-empty `title`/`video_url` (Python falsiness, no trimming): then
it returns 400, persists no Task and enqueues no message; whitespace-only
values pass the check. -/
theorem C5_amended (req : SubmitRequest) (o : SubmitOracle)
    (h : strTruthy req.title = false ∨ strTruthy req.video_url = false) :
    (handle_submit_task req o).statusCode = 400 ∧
    (handle_submit_task req o).savedTask = none ∧
    (handle_submit_task req o).enqueued = none := by
  rcases h with h | h <;> simp [handle_submit_task, h]

/-- C5 (witness): the amended statement instantiated on an exactly-empty
title. -/
theorem C5_witness :
    (handle_submit_task { title := some "", video_url := some "https://example.com/v.mp4" }
        subOracleOk).statusCode = 400 ∧
    (handle_submit_task { title := some "", video_url := some "https://example.com/v.mp4" }
        subOracleOk).savedTask = none ∧
    (handle_submit_task { title := some "", video_url := some "https://example.com/v.mp4" }
        subOracleOk).enqueued = none :=
  C5_amended _ subOracleOk (Or.inl rfl)

/-- C6: a queue message is enqueued only when the Task was persisted
first, and whenever persistence fails the submission returns a non-200
error response and enqueues nothing. -/
theorem C6_persist_before_enqueue (req : SubmitRequest) (o : SubmitOracle) :
    ((handle_submit_task req o).enqueued.isSome = true →
      (handle_submit_task req o).savedTask.isSome = true) ∧
    (o.saveOk = false →
      (handle_submit_task req o).enqueued = none ∧
      (handle_submit_task req o).statusCode ≠ 200) := by
  unfold handle_submit_task
  split_ifs <;> simp_all

/-- C6 (witness): instantiated on a successful submission (message
enqueued after persist) and on one whose persistence fails (500, no
message). -/
theorem C6_witness :
    (handle_submit_task reqOk subOracleOk).savedTask.isSome = true ∧
    ((handle_submit_task reqOk subOracleSaveFail).enqueued = none ∧
      (handle_submit_task reqOk subOracleSaveFail).statusCode ≠ 200) :=
  ⟨(C6_persist_before_enqueue reqOk subOracleOk).1 (by decide),
   (C6_persist_before_enqueue reqOk subOracleSaveFail).2 rfl⟩

end AbstractService
